import Mathlib

/-!
Verification development for the fgoslib bot task pipeline
(`hf_worker.py`, `render_service.py`, `my_bot.py`, `monitor_backend.py`).

The Python sources are shallowly embedded: pure helpers become Lean
functions, Redis becomes an explicit association-list store (with an
explicit clock where TTL matters), and network calls become oracle
functions supplied as parameters, with `Option`/sum results standing in
for raised exceptions.
-/

set_option maxHeartbeats 1000000

/-! ### Base64 (model of Python `base64.b64encode` / `base64.b64decode`) -/

/-- The standard base64 alphabet. -/
def b64Alphabet : List Char :=
  "ABCDEFGHIJKLMNOPQRSTUVWXYZabcdefghijklmnopqrstuvwxyz0123456789+/".toList

/-- Character for a 6-bit value. -/
def encChar (n : Nat) : Char := b64Alphabet.getD n '?'

/-- 6-bit value of a base64 character, `none` if not in the alphabet. -/
def decChar (c : Char) : Option Nat := b64Alphabet.findIdx? (fun x => x == c)

/-- Model of `base64.b64encode`: bytes (as `Nat`s below 256) to base64 text. -/
def encodeB64 : List Nat → List Char
  | [] => []
  | [b1] => [encChar (b1 / 4), encChar ((b1 % 4) * 16), '=', '=']
  | [b1, b2] => [encChar (b1 / 4), encChar ((b1 % 4) * 16 + b2 / 16), encChar ((b2 % 16) * 4), '=']
  | b1 :: b2 :: b3 :: rest =>
      encChar (b1 / 4) :: encChar ((b1 % 4) * 16 + b2 / 16) ::
      encChar ((b2 % 16) * 4 + b3 / 64) :: encChar (b3 % 64) :: encodeB64 rest

/-- Model of `base64.b64decode`: base64 text back to bytes, `none` models a
decoding exception (bad character / bad padding). -/
def decodeB64? : List Char → Option (List Nat)
  | [] => some []
  | c1 :: c2 :: c3 :: c4 :: rest =>
    match decChar c1, decChar c2 with
    | some n1, some n2 =>
      if c3 = '=' then
        (if c4 = '=' ∧ rest = [] then some [n1 * 4 + n2 / 16] else none)
      else
        match decChar c3 with
        | some n3 =>
          if c4 = '=' then
            (if rest = [] then some [n1 * 4 + n2 / 16, (n2 % 16) * 16 + n3 / 4] else none)
          else
            match decChar c4, decodeB64? rest with
            | some n4, some tl =>
                some ((n1 * 4 + n2 / 16) :: ((n2 % 16) * 16 + n3 / 4) :: ((n3 % 4) * 64 + n4) :: tl)
            | _, _ => none
        | none => none
    | _, _ => none
  | _ => none

theorem decChar_encChar : ∀ n, n < 64 → decChar (encChar n) = some n := by decide

theorem encChar_ne_pad : ∀ n, n < 64 → encChar n ≠ '=' := by decide

/-- Decoding inverts encoding on genuine byte lists. -/
theorem decodeB64_encodeB64 :
    ∀ (bs : List Nat), (∀ b ∈ bs, b < 256) → decodeB64? (encodeB64 bs) = some bs
  | [], _ => rfl
  | [b1], h => by
      have hb1 : b1 < 256 := h b1 (by simp)
      have h1 : b1 / 4 < 64 := by omega
      have h2 : (b1 % 4) * 16 < 64 := by omega
      simp only [encodeB64, decodeB64?, decChar_encChar _ h1, decChar_encChar _ h2]
      simp
      omega
  | [b1, b2], h => by
      have hb1 : b1 < 256 := h b1 (by simp)
      have hb2 : b2 < 256 := h b2 (by simp)
      have h1 : b1 / 4 < 64 := by omega
      have h2 : (b1 % 4) * 16 + b2 / 16 < 64 := by omega
      have h3 : (b2 % 16) * 4 < 64 := by omega
      simp only [encodeB64, decodeB64?, decChar_encChar _ h1, decChar_encChar _ h2,
        if_neg (encChar_ne_pad _ h3), decChar_encChar _ h3]
      simp
      omega
  | b1 :: b2 :: b3 :: rest, h => by
      have hb1 : b1 < 256 := h b1 (by simp)
      have hb2 : b2 < 256 := h b2 (by simp)
      have hb3 : b3 < 256 := h b3 (by simp)
      have ih := decodeB64_encodeB64 rest (fun b hb => h b
        (List.mem_cons_of_mem _ (List.mem_cons_of_mem _ (List.mem_cons_of_mem _ hb))))
      have h1 : b1 / 4 < 64 := by omega
      have h2 : (b1 % 4) * 16 + b2 / 16 < 64 := by omega
      have h3 : (b2 % 16) * 4 + b3 / 64 < 64 := by omega
      have h4 : b3 % 64 < 64 := by omega
      simp only [encodeB64, decodeB64?, decChar_encChar _ h1, decChar_encChar _ h2,
        if_neg (encChar_ne_pad _ h3), decChar_encChar _ h3,
        if_neg (encChar_ne_pad _ h4), decChar_encChar _ h4]
      rw [ih]
      simp
      omega

/-! ### `hf_worker.py`: moderation, validation, response normalization, retry loop -/

/-- The moderation deny-list from `hf_worker.BLACKLIST`. -/
def BLACKLIST : List (List Char) :=
  ["bomb".toList, "terror".toList, "drugs".toList, "sex".toList, "assault".toList,
   "kill".toList, "murder".toList, "porn".toList, "hate".toList, "racist".toList,
   "illegal".toList]

/-- Python `needle in hay` on character lists. -/
def listContains (needle : List Char) : List Char → Bool
  | [] => needle.isEmpty
  | c :: rest => needle.isPrefixOf (c :: rest) || listContains needle rest

/-- Python `str.lower` (ASCII fragment, which covers the deny-list). -/
def lowerL (s : List Char) : List Char := s.map Char.toLower

/-- `hf_worker.moderate_prompt`: `True` if the prompt is allowed. -/
def moderate_prompt (prompt : List Char) : Bool :=
  if prompt = [] then true
  else !(BLACKLIST.any (fun w => listContains w (lowerL prompt)))

/-- The prompt's lowercase form contains some deny-listed substring. -/
def promptHitsBlacklist (prompt : List Char) : Bool :=
  BLACKLIST.any (fun w => listContains w (lowerL prompt))

/-- Worker configuration (environment variables of `hf_worker.py`):
`MAX_IMAGES`, `MAX_PROMPT_LEN`, `HF_RETRIES`, and whether `TELEGRAM_TOKEN`
is set (`TG_API_BASE` non-`None`). -/
structure ProcCfg where
  maxImages : Nat
  maxPromptLen : Nat
  retries : Nat
  tgConfigured : Bool
deriving DecidableEq, Repr

/-- A dequeued queue item (`item` in `process_task`), with defaults applied. -/
structure TaskItem where
  task_id : String
  chat_id : Option Int
  task_text : String
  images : List String
  user_prompt : List Char
deriving DecidableEq, Repr

/-- The payload built by `process_task` for the external call. -/
structure Payload where
  task_id : String
  task_text : String
  images : List String
  user_prompt : List Char
deriving DecidableEq, Repr

/-- Python truthiness of `chat_id` in `if TG_API_BASE and chat_id`. -/
def chatTruthy : Option Int → Bool
  | some v => v ≠ 0
  | none => false

/-- A message observable on the Telegram side. -/
inductive Msg
  | text (s : String)
  | document (bytes : List Nat)
deriving DecidableEq, Repr

def modNotice : String := "Дополнительный промпт отклонён политикой; задача отправлена без него."

def unexpectedFormatMsg : String := "HF вернул неожиданный формат ответа."

def genericFailureMsg : String := "Ошибка при генерации решения, попробуйте позже."

/-- Image truncation in `process_task` (`images = images[:MAX_IMAGES]`). -/
def truncateImages (cfg : ProcCfg) (images : List String) : List String :=
  if images.length > cfg.maxImages then images.take cfg.maxImages else images

/-- Prompt truncation in `process_task` (`user_prompt = user_prompt[:MAX_PROMPT_LEN]`). -/
def truncatePrompt (cfg : ProcCfg) (p : List Char) : List Char :=
  if p.length > cfg.maxPromptLen then p.take cfg.maxPromptLen else p

/-- The moderation step of `process_task`: returns the prompt actually used
and the notice messages sent. -/
def moderationPhase (cfg : ProcCfg) (chat : Option Int) (p : List Char) :
    List Char × List Msg :=
  if moderate_prompt p then (p, [])
  else ([], if cfg.tgConfigured && chatTruthy chat then [Msg.text modNotice] else [])

/-- The prompt handed to `moderate_prompt` by `process_task`. -/
def moderationInput (cfg : ProcCfg) (item : TaskItem) : List Char :=
  truncatePrompt cfg item.user_prompt

/-- The payload `process_task` sends to the external compute call. -/
def payloadOf (cfg : ProcCfg) (item : TaskItem) : Payload :=
  { task_id := item.task_id
    task_text := item.task_text
    images := truncateImages cfg item.images
    user_prompt := (moderationPhase cfg item.chat_id (moderationInput cfg item)).1 }

/-- Moderation notices emitted before the call loop. -/
def moderationMsgs (cfg : ProcCfg) (item : TaskItem) : List Msg :=
  (moderationPhase cfg item.chat_id (moderationInput cfg item)).2

/-- An element of a `data` list in an HF response. -/
inductive DataEl
  | entry (ty : Option String) (dataVal : Option String) (url : Option String)
  | other
deriving DecidableEq, Repr

/-- A JSON-dict HF response; `none` fields model absent keys and
`extraKeys` records whether the dict has further (unrecognized) keys. -/
structure HFResp where
  fileBytes : Option (List Nat) := none
  pdfUrl : Option String := none
  pdfB64 : Option (List Char) := none
  dataList : Option (List DataEl) := none
  extraKeys : Bool := false
deriving DecidableEq, Repr

/-- Python truthiness of the response dict (`if not resp`). -/
def HFResp.truthy (r : HFResp) : Bool :=
  r.fileBytes.isSome || r.pdfUrl.isSome || r.pdfB64.isSome || r.dataList.isSome || r.extraKeys

/-- A value stored by `save_result_to_redis` (the JSON result dict). -/
structure Stored where
  status : String
  error? : Option String := none
  response? : Option HFResp := none
  pdfB64? : Option (List Char) := none
deriving DecidableEq, Repr

/-- The Redis key used by `save_result_to_redis`. -/
def resultKey (taskId : String) : String := "task_pdf_result:" ++ taskId

/-- Outcome of one external compute call (`call_hf_via_gradio_client`
falling back to `call_hf_api`): a raised exception or a response. -/
inductive CallOutcome
  | raise (e : String)
  | ok (resp : HFResp)

/-- Oracles for the outside world: the external compute call per attempt
ordinal, and `download_url` (`none` models a raised exception). -/
structure Env where
  call : Payload → Nat → CallOutcome
  download : String → Option (List Nat)

/-- Outcome of one iteration of the retry loop body: the task finished
(function returned) with these Redis writes and Telegram messages, or an
exception reached the `except` handler. -/
inductive StepIter
  | finished (writes : List (String × Stored)) (msgs : List Msg)
  | failed (e : String)
deriving Repr

/-- The `if pdf_bytes: ... else: ...` tail of the loop body, once
`pdf_bytes` has been assigned by some branch. -/
def finishPdf (cfg : ProcCfg) (tid : String) (chat : Option Int) (b : List Nat) : StepIter :=
  if b ≠ [] then
    StepIter.finished
      [(resultKey tid, { status := "ok", pdfB64? := some (encodeB64 b) })]
      (if cfg.tgConfigured && chatTruthy chat then [Msg.document b] else [])
  else
    StepIter.finished [(resultKey tid, { status := "error", error? := some "no_pdf_bytes" })] []

/-- The `no recognizable pdf` fallback: store the error with the raw
response and notify the user. -/
def noRecognized (cfg : ProcCfg) (tid : String) (chat : Option Int) (resp : HFResp) : StepIter :=
  StepIter.finished
    [(resultKey tid,
      { status := "error", error? := some "no_pdf_in_hf_response", response? := some resp })]
    (if cfg.tgConfigured && chatTruthy chat then [Msg.text unexpectedFormatMsg] else [])

/-- The `for el in resp['data']` scan: first element carrying decodable
inline base64 of type `pdf`, else a downloadable URL; failures fall
through to the next candidate. -/
def scanData (env : Env) : List DataEl → Option (List Nat)
  | [] => none
  | DataEl.other :: rest => scanData env rest
  | DataEl.entry ty dv url :: rest =>
    let fromData : Option (List Nat) :=
      match ty, dv with
      | some tys, some d => if tys = "pdf" ∧ d ≠ "" then decodeB64? d.toList else none
      | _, _ => none
    match fromData with
    | some b => some b
    | none =>
      match url with
      | some u =>
        if u ≠ "" then
          match env.download u with
          | some b => some b
          | none => scanData env rest
        else scanData env rest
      | none => scanData env rest

/-- The HTTP-style branch chain on the response dict:
`pdf_url`, then `pdf_base64`, then the nested `data` list. -/
def httpShapeChain (cfg : ProcCfg) (env : Env) (tid : String) (chat : Option Int)
    (resp : HFResp) : StepIter :=
  match resp.pdfUrl with
  | some u =>
    match env.download u with
    | some b => finishPdf cfg tid chat b
    | none => StepIter.failed ("download failed: " ++ u)
  | none =>
    match resp.pdfB64 with
    | some s =>
      match decodeB64? s with
      | some b => finishPdf cfg tid chat b
      | none => StepIter.failed "invalid base64 in pdf_base64"
    | none =>
      match resp.dataList.bind (scanData env) with
      | some b => if b ≠ [] then finishPdf cfg tid chat b else noRecognized cfg tid chat resp
      | none => noRecognized cfg tid chat resp

/-- Handling of a non-exceptional call response inside the `try` block of
`process_task`'s retry loop. -/
def handleResp (cfg : ProcCfg) (env : Env) (tid : String) (chat : Option Int)
    (resp : HFResp) : StepIter :=
  if resp.truthy = false then StepIter.failed "empty response from HF"
  else
    match resp.fileBytes with
    | some b =>
      if b ≠ [] then finishPdf cfg tid chat b
      else httpShapeChain cfg env tid chat resp
    | none => httpShapeChain cfg env tid chat resp

/-- One iteration of the retry loop body at attempt ordinal `n`. -/
def attemptStep (cfg : ProcCfg) (env : Env) (p : Payload) (chat : Option Int)
    (n : Nat) : StepIter :=
  match env.call p n with
  | CallOutcome.raise e => StepIter.failed e
  | CallOutcome.ok resp => handleResp cfg env p.task_id chat resp

/-- Observable outcome of a `process_task` run: Redis writes, Telegram
messages, the sleeps performed (in seconds, in order), and the number of
external call attempts. -/
structure RunOut where
  writes : List (String × Stored)
  msgs : List Msg
  sleeps : List Nat
  attempts : Nat
deriving Repr

/-- The `while attempt <= RETRIES` loop of `process_task`.  `fuel` is the
number of remaining permitted attempts (`RETRIES + 1 - attempt`), so
`fuel = 0` is the exit of the loop: store the final error and notify. -/
def loopHF (cfg : ProcCfg) (env : Env) (p : Payload) (chat : Option Int) :
    Nat → Option String → Nat → RunOut
  | _, lastErr, 0 =>
    { writes := [(resultKey p.task_id, { status := "error", error? := lastErr })]
      msgs := if cfg.tgConfigured && chatTruthy chat then [Msg.text genericFailureMsg] else []
      sleeps := []
      attempts := 0 }
  | attempt, _, fuel + 1 =>
    match attemptStep cfg env p chat attempt with
    | StepIter.finished ws ms => { writes := ws, msgs := ms, sleeps := [], attempts := 1 }
    | StepIter.failed e =>
      let rest := loopHF cfg env p chat (attempt + 1) (some e) fuel
      { writes := rest.writes
        msgs := rest.msgs
        sleeps := (1 + (attempt + 1) * 2) :: rest.sleeps
        attempts := rest.attempts + 1 }

/-- `hf_worker.process_task`: validation, moderation, then the retry loop. -/
def process_task (cfg : ProcCfg) (env : Env) (item : TaskItem) : RunOut :=
  let rest := loopHF cfg env (payloadOf cfg item) item.chat_id 0 none (cfg.retries + 1)
  { writes := rest.writes
    msgs := moderationMsgs cfg item ++ rest.msgs
    sleeps := rest.sleeps
    attempts := rest.attempts }

/-! ### Result Store with TTL (Redis `SET key val EX ttl` / `GET`) -/

/-- A key-value store with absolute expiry times: each entry is
`(key, value, expiry)`. -/
structure TStore where
  entries : List (String × String × Nat)
deriving DecidableEq, Repr

/-- `r.set(key, val, ex=ttl)` at clock time `now`. -/
def tset (s : TStore) (k v : String) (now ttl : Nat) : TStore :=
  ⟨(k, v, now + ttl) :: s.entries.filter (fun p => !(p.1 == k))⟩

/-- `r.get(key)` at clock time `now`: an expired entry reads as absent. -/
def tget (s : TStore) (k : String) (now : Nat) : Option String :=
  match s.entries.find? (fun p => p.1 == k) with
  | some (_, v, exp) => if now < exp then some v else none
  | none => none

/-- `my_bot.start`, cache write: `r.set(cache_key, b64, ex=REDIS_TTL * 6)`
with `cache_key = f"task_pdf:{task_id}"` and `b64` the base64 of the PDF. -/
def cacheTaskPdf (ttl : Nat) (s : TStore) (now : Nat) (tid : String) (pdf : List Nat) : TStore :=
  tset s ("task_pdf:" ++ tid) (String.mk (encodeB64 pdf)) now (ttl * 6)

/-- `my_bot.start`, cache read plus `base64.b64decode(cached)`. -/
def loadTaskPdf (s : TStore) (now : Nat) (tid : String) : Option (List Nat) :=
  (tget s ("task_pdf:" ++ tid) now).bind (fun v => decodeB64? v.toList)

/-! ### `render_service.py`: `render_task` and the worker loop -/

/-- A value in the render service's Redis: a task object that parses as a
JSON dict, or a plain string (markers, base64 blobs, URLs, or unparseable
task payloads). -/
inductive RVal
  | json (task_text : String)
  | plain (s : String)
deriving DecidableEq, Repr

/-- Snapshot of the render service's Redis as an association list
(TTLs not modelled: the snapshot is read right after the step). -/
abbrev RStore := List (String × RVal)

def rset (s : RStore) (k : String) (v : RVal) : RStore :=
  (k, v) :: s.filter (fun p => !(p.1 == k))

def rget (s : RStore) (k : String) : Option RVal :=
  (s.find? (fun p => p.1 == k)).map (fun p => p.2)

def rdel (s : RStore) (k : String) : RStore :=
  s.filter (fun p => !(p.1 == k))

/-- Render service configuration: whether `S3_BUCKET` is set. -/
structure RenderCfg where
  s3Bucket : Bool
deriving DecidableEq, Repr

/-- Outcome of the Playwright part of `render_task`:
`raiseLaunch` — an exception before the inner `try` (e.g. browser launch),
which propagates out of `render_task`;
`failInPage` — an exception inside the inner `try`, caught and logged;
`pdf b s3url` — `page.pdf` produced `b`, and `upload_to_s3` returned
`s3url` when attempted. -/
inductive RenderOutcome
  | raiseLaunch
  | failInPage
  | pdf (b : List Nat) (s3url : Option String)
deriving DecidableEq, Repr

/-- `render_service.render_task`: returns the updated store and whether an
exception propagated to the caller. -/
def render_task (cfg : RenderCfg) (out : RenderOutcome) (store : RStore) (tid : String) :
    RStore × Bool :=
  match rget store ("task:" ++ tid) with
  | none => (store, false)
  | some (RVal.plain _) => (store, false)
  | some (RVal.json _) =>
    match out with
    | RenderOutcome.raiseLaunch => (store, true)
    | RenderOutcome.failInPage => (store, false)
    | RenderOutcome.pdf b s3url =>
      if cfg.s3Bucket then
        match s3url with
        | some url => (rset store ("task_pdf_url:" ++ tid) (RVal.plain url), false)
        | none =>
          (rset store ("task_pdf:" ++ tid) (RVal.plain (String.mk (encodeB64 b))), false)
      else (rset store ("task_pdf:" ++ tid) (RVal.plain (String.mk (encodeB64 b))), false)

/-- One dequeued task id in `render_service.worker_loop`: set the pending
marker, run `render_task`, and on normal return set the ready marker and
delete the pending marker; an exception is caught by the loop's `except`
after which neither happens. -/
def workerStep (cfg : RenderCfg) (out : RenderOutcome) (store : RStore) (tid : String) :
    RStore :=
  let s1 := rset store ("task_pending:" ++ tid) (RVal.plain "1")
  let res := render_task cfg out s1 tid
  if res.2 then res.1
  else rdel (rset res.1 ("task_ready:" ++ tid) (RVal.plain "1")) ("task_pending:" ++ tid)

/-! ### `my_bot.log_event` -/

/-- Redis `LTRIM` with possibly negative indices (offsets from the end). -/
def redisLtrim (l : List String) (start stop : Int) : List String :=
  let n : Int := l.length
  let s0 : Int := if start < 0 then n + start else start
  let e0 : Int := if stop < 0 then n + stop else stop
  let s1 : Int := max s0 0
  let e1 : Int := min e0 (n - 1)
  if s1 > e1 then [] else (l.drop s1.toNat).take (e1 - s1 + 1).toNat

/-- `my_bot.log_event`: `RPUSH bot_logs entry` then `LTRIM bot_logs -100 -1`.
Takes and returns the `bot_logs` list. -/
def log_event (logs : List String) (entry : String) : List String :=
  redisLtrim (logs ++ [entry]) (-100) (-1)

/-! ### `monitor_backend.task_image` -/

/-- A stored task for the monitor backend: parsed JSON dict with its
`images` list (default `[]`), or a non-JSON value. -/
inductive TVal
  | json (images : List String)
  | plain (s : String)
deriving DecidableEq, Repr

abbrev MStore := List (String × TVal)

def mget (s : MStore) (k : String) : Option TVal :=
  (s.find? (fun p => p.1 == k)).map (fun p => p.2)

/-- `r.get(f"task:{task_id}") or r.get(task_id)`. -/
def lookupTask (s : MStore) (tid : String) : Option TVal :=
  match mget s ("task:" ++ tid) with
  | some v => some v
  | none => mget s tid

/-- HTTP responses of the `/task_image/<task_id>/<idx>` endpoint. -/
inductive ImgResponse
  | notFound
  | invalidTask
  | indexOutOfRange
  | dataBytes (mime : String) (bytes : List Nat)
  | invalidDataUrl
  | redirect (url : String)
  | raw (img : String)
deriving DecidableEq, Repr

/-- `s.split(sep, 1)` when it yields two parts, else `none`. -/
def splitOnce (sep : Char) : List Char → Option (List Char × List Char)
  | [] => none
  | c :: rest =>
    if c = sep then some ([], rest)
    else (splitOnce sep rest).map (fun q => (c :: q.1, q.2))

/-- `s.split(sep, 1)[0]`. -/
def takeUntil (sep : Char) (l : List Char) : List Char :=
  match splitOnce sep l with
  | some (a, _) => a
  | none => l

/-- Per-image handling in `task_image`: data URLs are decoded, HTTP(S)
URLs redirected, anything else returned as raw text. -/
def handleImg (img : String) : ImgResponse :=
  let cs := img.toList
  if "data:".toList.isPrefixOf cs then
    match splitOnce ',' cs with
    | none => ImgResponse.invalidDataUrl
    | some (header, b64) =>
      match splitOnce ':' header with
      | none => ImgResponse.invalidDataUrl
      | some (_, afterColon) =>
        match decodeB64? b64 with
        | some bytes => ImgResponse.dataBytes (String.mk (takeUntil ';' afterColon)) bytes
        | none => ImgResponse.invalidDataUrl
  else if "http://".toList.isPrefixOf cs || "https://".toList.isPrefixOf cs then
    ImgResponse.redirect img
  else ImgResponse.raw img

/-- `monitor_backend.task_image`: bounds-guarded lookup of one task image. -/
def task_image (store : MStore) (tid : String) (idx : Int) : ImgResponse :=
  match lookupTask store tid with
  | none => ImgResponse.notFound
  | some (TVal.plain _) => ImgResponse.invalidTask
  | some (TVal.json images) =>
    if h0 : idx < 0 then ImgResponse.indexOutOfRange
    else if h1 : (images.length : Int) ≤ idx then ImgResponse.indexOutOfRange
    else handleImg (images.get ⟨idx.toNat, by omega⟩)

/-! ### Retry loop: runs where every attempt raises -/

/-- Closed form of the retry loop when the external call raises at every
attempt ordinal: `fuel` attempts are made, each failed attempt `n` sleeps
`1 + (n + 1) * 2` seconds, and the loop ends with a single terminal error
write recording the last error. -/
theorem loopHF_all_raise (cfg : ProcCfg) (env : Env) (p : Payload) (chat : Option Int)
    (errs : Nat → String) (h : ∀ n, env.call p n = CallOutcome.raise (errs n)) :
    ∀ fuel attempt lastErr, loopHF cfg env p chat attempt lastErr fuel =
      { writes := [(resultKey p.task_id,
          { status := "error",
            error? := if fuel = 0 then lastErr else some (errs (attempt + fuel - 1)) })]
        msgs := if cfg.tgConfigured && chatTruthy chat then [Msg.text genericFailureMsg] else []
        sleeps := (List.range fuel).map (fun i => 1 + (attempt + i + 1) * 2)
        attempts := fuel } := by
  intro fuel
  induction fuel with
  | zero => intro attempt lastErr; simp [loopHF]
  | succ fuel ih =>
    intro attempt lastErr
    simp only [loopHF, attemptStep, h attempt, ih (attempt + 1) (some (errs attempt))]
    refine RunOut.mk.injEq .. ▸ ⟨?_, rfl, ?_, rfl⟩
    · rcases fuel with _ | fuel
      · simp
      · have e : attempt + 1 + (fuel + 1) - 1 = attempt + (fuel + 1 + 1) - 1 := by omega
        simp [e]
    · rw [List.range_succ_eq_map, List.map_cons, List.map_map]
      congr 1
      refine List.map_congr_left (fun i _ => ?_)
      simp only [Function.comp_apply, Nat.succ_eq_add_one]
      ring

/-- Fixture: a worker configuration with `RETRIES = 2`. -/
def cfgW1 : ProcCfg := { maxImages := 5, maxPromptLen := 1000, retries := 2, tgConfigured := true }

/-- Fixture: every external call raises, every download raises. -/
def envW1 : Env := { call := fun _ _ => CallOutcome.raise "boom", download := fun _ => none }

/-- Fixture: a plain queue item. -/
def itemW1 : TaskItem :=
  { task_id := "t1", chat_id := some 7, task_text := "solve 2+2", images := [], user_prompt := [] }

/-- C1: if the external compute call raises on every attempt, `process_task`
performs exactly `RETRIES + 1` attempts, stores a single terminal result of
status `error` under the task's result key, and caches no status-`ok`
artifact during the pass. -/
theorem process_task_exhausted_retries (cfg : ProcCfg) (env : Env) (item : TaskItem)
    (errs : Nat → String)
    (h : ∀ n, env.call (payloadOf cfg item) n = CallOutcome.raise (errs n)) :
    (process_task cfg env item).attempts = cfg.retries + 1 ∧
    (process_task cfg env item).writes =
      [(resultKey item.task_id, { status := "error", error? := some (errs cfg.retries) })] ∧
    ∀ w ∈ (process_task cfg env item).writes, w.2.status ≠ "ok" := by
  have L := loopHF_all_raise cfg env (payloadOf cfg item) item.chat_id errs h
    (cfg.retries + 1) 0 none
  have e : 0 + (cfg.retries + 1) - 1 = cfg.retries := by omega
  have hid : (payloadOf cfg item).task_id = item.task_id := rfl
  have hwr : (process_task cfg env item).writes =
      [(resultKey item.task_id, { status := "error", error? := some (errs cfg.retries) })] := by
    simp [process_task, L, e, hid]
  refine ⟨?_, hwr, ?_⟩
  · simp [process_task, L]
  · intro w hw
    rw [hwr, List.mem_singleton] at hw
    subst hw
    intro hcon
    have h2 : ("error" : String) = "ok" := hcon
    exact absurd h2 (by decide)

/-- Witness for C1 at a concrete run. -/
theorem process_task_exhausted_retries_witness :
    (process_task cfgW1 envW1 itemW1).attempts = cfgW1.retries + 1 ∧
    (process_task cfgW1 envW1 itemW1).writes =
      [(resultKey itemW1.task_id, { status := "error", error? := some "boom" })] ∧
    ∀ w ∈ (process_task cfgW1 envW1 itemW1).writes, w.2.status ≠ "ok" :=
  process_task_exhausted_retries cfgW1 envW1 itemW1 (fun _ => "boom") (fun _ => rfl)

/-- Fixture: a worker configuration with `RETRIES = 1`. -/
def cfgW6 : ProcCfg := { maxImages := 5, maxPromptLen := 1000, retries := 1, tgConfigured := true }

/-- C6 counterexample: with every attempt failing, the sleep after the
failed attempt of ordinal 0 is `1 + (0 + 1) * 2 = 3` seconds, not the
`base + attempt * step = 1 + 0 * 2 = 1` seconds the claim states (the code
increments `attempt` before `time.sleep(1 + attempt * 2)`). -/
theorem backoff_first_sleep_example :
    (process_task cfgW6 envW1 itemW1).sleeps = [3, 5] ∧
    (process_task cfgW6 envW1 itemW1).sleeps.head? ≠ some (1 + 0 * 2) := by decide

/-- C6 (amended): a failed attempt with ordinal `n` sleeps exactly
`base + (n + 1) * step = 1 + (n + 1) * 2` seconds before the next
iteration. -/
theorem backoff_sleep_formula (cfg : ProcCfg) (env : Env) (p : Payload) (chat : Option Int)
    (n : Nat) (lastErr : Option String) (fuel : Nat) (e : String)
    (h : env.call p n = CallOutcome.raise e) :
    (loopHF cfg env p chat n lastErr (fuel + 1)).sleeps.head? = some (1 + (n + 1) * 2) := by
  simp [loopHF, attemptStep, h]

/-- Witness for the amended C6 at a concrete failing attempt. -/
theorem backoff_sleep_formula_witness :
    (loopHF cfgW6 envW1
      { task_id := "t1", task_text := "", images := [], user_prompt := [] }
      (some 7) 0 none (0 + 1)).sleeps.head? = some (1 + (0 + 1) * 2) :=
  backoff_sleep_formula cfgW6 envW1 _ (some 7) 0 none 0 "boom" rfl

/-! ### Response normalization (C4) -/

/-- The outcome of the `pdf_url` branch: a function of the URL alone. -/
def urlBranchResult (cfg : ProcCfg) (env : Env) (tid : String) (chat : Option Int)
    (u : String) : StepIter :=
  match env.download u with
  | some b => finishPdf cfg tid chat b
  | none => StepIter.failed ("download failed: " ++ u)

/-- The outcome of the `pdf_base64` branch: a function of the base64 text alone. -/
def b64BranchResult (cfg : ProcCfg) (tid : String) (chat : Option Int)
    (s : List Char) : StepIter :=
  match decodeB64? s with
  | some b => finishPdf cfg tid chat b
  | none => StepIter.failed "invalid base64 in pdf_base64"

/-- The nested `data` scan produced no non-empty PDF bytes. -/
def noDataPdf (env : Env) (resp : HFResp) : Prop :=
  (resp.dataList.bind (scanData env)).getD [] = []

/-- Fixture: a truthy response dict none of whose recognized fields is set. -/
def respW4 : HFResp := { extraKeys := true }

/-- Fixture: the external call returns `respW4` on every attempt. -/
def envW4 : Env := { call := fun _ _ => CallOutcome.ok respW4, download := fun _ => none }

/-- C4: normalization recognizes exactly one branch in priority order —
`pdf_url` first (its outcome a function of the URL alone, whatever the
other fields hold), then `pdf_base64`, then a `data`-list element with
inline base64 or a URL — and when none matches, the pass stores one error
result carrying the raw response, notifies the user of the unexpected
format, and returns after this single attempt with no retries and no
sleeps. -/
theorem normalization_priority_and_fallback (cfg : ProcCfg) (env : Env) (item : TaskItem)
    (resp : HFResp) (hfb : resp.fileBytes = none) (htr : resp.truthy = true) :
    (∀ u, resp.pdfUrl = some u →
      handleResp cfg env item.task_id item.chat_id resp =
        urlBranchResult cfg env item.task_id item.chat_id u) ∧
    (∀ s, resp.pdfUrl = none → resp.pdfB64 = some s →
      handleResp cfg env item.task_id item.chat_id resp =
        b64BranchResult cfg item.task_id item.chat_id s) ∧
    (∀ b, resp.pdfUrl = none → resp.pdfB64 = none →
      resp.dataList.bind (scanData env) = some b → b ≠ [] →
      handleResp cfg env item.task_id item.chat_id resp =
        finishPdf cfg item.task_id item.chat_id b) ∧
    (resp.pdfUrl = none → resp.pdfB64 = none → noDataPdf env resp →
      env.call (payloadOf cfg item) 0 = CallOutcome.ok resp →
      (process_task cfg env item).attempts = 1 ∧
      (process_task cfg env item).sleeps = [] ∧
      (process_task cfg env item).writes =
        [(resultKey item.task_id,
          { status := "error", error? := some "no_pdf_in_hf_response",
            response? := some resp })] ∧
      (cfg.tgConfigured = true → chatTruthy item.chat_id = true →
        Msg.text unexpectedFormatMsg ∈ (process_task cfg env item).msgs)) := by
  refine ⟨?_, ?_, ?_, ?_⟩
  · intro u hu
    simp [handleResp, hfb, htr, httpShapeChain, hu, urlBranchResult]
  · intro s hu hb
    simp [handleResp, hfb, htr, httpShapeChain, hu, hb, b64BranchResult]
  · intro b hu hb hd hne
    simp [handleResp, hfb, htr, httpShapeChain, hu, hb, hd, hne]
  · intro hu hb hd hcall
    have hid : (payloadOf cfg item).task_id = item.task_id := rfl
    have hchain : handleResp cfg env item.task_id item.chat_id resp =
        noRecognized cfg item.task_id item.chat_id resp := by
      rcases hdd : resp.dataList.bind (scanData env) with _ | b
      · simp [handleResp, hfb, htr, httpShapeChain, hu, hb, hdd]
      · have hbe : b = [] := by
          have := hd
          rw [noDataPdf, hdd] at this
          simpa using this
        subst hbe
        simp [handleResp, hfb, htr, httpShapeChain, hu, hb, hdd]
    have hstep : attemptStep cfg env (payloadOf cfg item) item.chat_id 0 =
        noRecognized cfg item.task_id item.chat_id resp := by
      simp only [attemptStep, hcall, hid, hchain]
    have hloop : loopHF cfg env (payloadOf cfg item) item.chat_id 0 none (cfg.retries + 1) =
        { writes := [(resultKey item.task_id,
            { status := "error", error? := some "no_pdf_in_hf_response",
              response? := some resp })]
          msgs := if cfg.tgConfigured && chatTruthy item.chat_id
            then [Msg.text unexpectedFormatMsg] else []
          sleeps := []
          attempts := 1 } := by
      simp only [loopHF, hstep, noRecognized]
    refine ⟨?_, ?_, ?_, ?_⟩
    · simp [process_task, hloop]
    · simp [process_task, hloop]
    · simp [process_task, hloop]
    · intro htg hch
      simp [process_task, hloop, htg, hch]

/-- Witness for C4: a truthy response with no recognizable artifact field
yields one attempt, no sleeps, a stored error carrying the raw response,
and the unexpected-format notice. -/
theorem normalization_priority_and_fallback_witness :
    (process_task cfgW1 envW4 itemW1).attempts = 1 ∧
    (process_task cfgW1 envW4 itemW1).sleeps = [] ∧
    (process_task cfgW1 envW4 itemW1).writes =
      [(resultKey itemW1.task_id,
        { status := "error", error? := some "no_pdf_in_hf_response",
          response? := some respW4 })] ∧
    Msg.text unexpectedFormatMsg ∈ (process_task cfgW1 envW4 itemW1).msgs := by
  have h := (normalization_priority_and_fallback cfgW1 envW4 itemW1 respW4 rfl rfl).2.2.2
    rfl rfl rfl rfl
  exact ⟨h.1, h.2.1, h.2.2.1, h.2.2.2 rfl rfl⟩

/-! ### Moderation and validation (C5, C8) -/

/-- A prompt whose lowercase form contains a deny-listed word is blocked. -/
theorem moderate_prompt_false_of_hit (p : List Char) (h : promptHitsBlacklist p = true) :
    moderate_prompt p = false := by
  have hp : p ≠ [] := by
    intro he
    subst he
    revert h
    decide
  rw [moderate_prompt, if_neg hp]
  rw [promptHitsBlacklist] at h
  simp [h]

/-- Fixture: `MAX_PROMPT_LEN = 4`, so truncation cuts `"aabomb"` to `"aabo"`. -/
def cfgW5 : ProcCfg := { maxImages := 5, maxPromptLen := 4, retries := 0, tgConfigured := true }

/-- Fixture: a prompt that contains `bomb` only beyond the truncation point. -/
def itemW5 : TaskItem :=
  { task_id := "t5", chat_id := some 7, task_text := "", images := [],
    user_prompt := "aabomb".toList }

/-- C5 counterexample: the prompt `"aabomb"` contains the deny-listed word
`bomb`, yet with `MAX_PROMPT_LEN = 4` truncation runs before moderation, so
the payload prompt is the non-empty `"aabo"` and no moderation notice is
sent. -/
theorem moderation_truncation_gap_example :
    promptHitsBlacklist itemW5.user_prompt = true ∧
    (payloadOf cfgW5 itemW5).user_prompt ≠ [] ∧
    moderationMsgs cfgW5 itemW5 = [] := by decide

/-- C5 (amended): if the prompt after truncation to `MAX_PROMPT_LEN`
contains a deny-listed substring (case-insensitively), the payload's
`user_prompt` is empty, and when Telegram is configured and a chat id is
present the moderation notice is sent. -/
theorem moderation_blocked_prompt_dropped (cfg : ProcCfg) (env : Env) (item : TaskItem)
    (h : promptHitsBlacklist (truncatePrompt cfg item.user_prompt) = true) :
    (payloadOf cfg item).user_prompt = [] ∧
    (cfg.tgConfigured = true → chatTruthy item.chat_id = true →
      Msg.text modNotice ∈ (process_task cfg env item).msgs) := by
  have hm : moderate_prompt (moderationInput cfg item) = false :=
    moderate_prompt_false_of_hit _ (by rw [moderationInput]; exact h)
  constructor
  · simp [payloadOf, moderationPhase, hm]
  · intro htg hch
    have hmm : moderationMsgs cfg item = [Msg.text modNotice] := by
      simp [moderationMsgs, moderationPhase, hm, htg, hch]
    simp [process_task, hmm]

/-- Fixture: a short deny-listed prompt that survives truncation intact. -/
def itemW5b : TaskItem :=
  { task_id := "t5", chat_id := some 7, task_text := "", images := [],
    user_prompt := "make a BOMB".toList }

/-- Witness for the amended C5 at a concrete blocked prompt. -/
theorem moderation_blocked_prompt_dropped_witness :
    (payloadOf cfgW1 itemW5b).user_prompt = [] ∧
    Msg.text modNotice ∈ (process_task cfgW1 envW1 itemW5b).msgs := by
  have h := moderation_blocked_prompt_dropped cfgW1 envW1 itemW5b (by decide)
  exact ⟨h.1, h.2 rfl rfl⟩

/-- C8: two independent properties of any task — whenever it has more than
`MAX_IMAGES` images, it is processed with exactly `MAX_IMAGES` images; and
whenever its prompt is longer than `MAX_PROMPT_LEN`, the prompt has length
exactly `MAX_PROMPT_LEN` at the point where moderation is applied. -/
theorem validation_truncates_to_max (cfg : ProcCfg) (item : TaskItem) :
    (cfg.maxImages < item.images.length →
      (payloadOf cfg item).images.length = cfg.maxImages) ∧
    (cfg.maxPromptLen < item.user_prompt.length →
      (moderationInput cfg item).length = cfg.maxPromptLen) := by
  constructor
  · intro hi
    show (truncateImages cfg item.images).length = cfg.maxImages
    rw [truncateImages, if_pos hi, List.length_take]
    omega
  · intro hp
    rw [moderationInput, truncatePrompt, if_pos hp, List.length_take]
    omega

/-- Fixture: limits smaller than the submitted tasks' oversized sides. -/
def cfgW8 : ProcCfg := { maxImages := 1, maxPromptLen := 2, retries := 0, tgConfigured := false }

/-- Fixture: too many images but a short-enough prompt. -/
def itemW8a : TaskItem :=
  { task_id := "t8", chat_id := none, task_text := "", images := ["a", "b"],
    user_prompt := "x".toList }

/-- Fixture: few-enough images but a too-long prompt. -/
def itemW8b : TaskItem :=
  { task_id := "t8", chat_id := none, task_text := "", images := ["a"],
    user_prompt := "xyz".toList }

/-- Witness for C8, exercising each truncation on a task oversized only in
that one dimension. -/
theorem validation_truncates_to_max_witness :
    (payloadOf cfgW8 itemW8a).images.length = cfgW8.maxImages ∧
    (moderationInput cfgW8 itemW8b).length = cfgW8.maxPromptLen :=
  ⟨(validation_truncates_to_max cfgW8 itemW8a).1 (by decide),
   (validation_truncates_to_max cfgW8 itemW8b).2 (by decide)⟩

/-! ### `log_event` bound (C9) -/

/-- `LTRIM l -100 -1` keeps exactly the last 100 elements. -/
theorem redisLtrim_last100 (l : List String) (hl : l ≠ []) :
    redisLtrim l (-100) (-1) = l.drop (l.length - 100) := by
  have hn : 1 ≤ l.length := List.length_pos.mpr hl
  rw [redisLtrim]
  simp only [show ((-100 : Int) < 0) = True by norm_num,
    show ((-1 : Int) < 0) = True by norm_num, if_true]
  rw [if_neg (by omega)]
  have hdropidx : (max ((l.length : Int) + -100) 0).toNat = l.length - 100 := by omega
  rw [hdropidx]
  apply List.take_of_length_le
  rw [List.length_drop]
  omega

/-- C9: every `log_event` call leaves `bot_logs` with at most 100 entries,
namely exactly the `min (n + 1) 100` most recently appended ones (a suffix
of the appended list). -/
theorem log_event_bounded (logs : List String) (entry : String) :
    (log_event logs entry).length ≤ 100 ∧
    (log_event logs entry).length = min (logs.length + 1) 100 ∧
    List.IsSuffix (log_event logs entry) (logs ++ [entry]) := by
  have hne : logs ++ [entry] ≠ [] := by simp
  have key : log_event logs entry
      = (logs ++ [entry]).drop ((logs ++ [entry]).length - 100) :=
    redisLtrim_last100 _ hne
  have hlen : (logs ++ [entry]).length = logs.length + 1 := by simp
  refine ⟨?_, ?_, ?_⟩
  · rw [key, List.length_drop, hlen]; omega
  · rw [key, List.length_drop, hlen]; omega
  · rw [key]; exact List.drop_suffix _ _

/-! ### `task_image` bounds guard (C10) -/

/-- C10: for a stored, parseable task, an index outside
`[0, len(images))` yields the `index out of range` not-found response, and
an in-range index is served from a checked access to `images[idx]`. -/
theorem task_image_index_guard (store : MStore) (tid : String) (idx : Int)
    (images : List String)
    (hl : lookupTask store tid = some (TVal.json images)) :
    ((idx < 0 ∨ (images.length : Int) ≤ idx) →
      task_image store tid idx = ImgResponse.indexOutOfRange) ∧
    (∀ (h0 : 0 ≤ idx) (h1 : idx < (images.length : Int)),
      task_image store tid idx = handleImg (images.get ⟨idx.toNat, by omega⟩)) := by
  constructor
  · intro h
    by_cases h0 : idx < 0
    · simp [task_image, hl, h0]
    · have h1 : (images.length : Int) ≤ idx := by
        rcases h with h | h
        · exact absurd h h0
        · exact h
      simp [task_image, hl, h0, h1]
  · intro h0 h1
    have hn0 : ¬ idx < 0 := by omega
    have hn1 : ¬ (images.length : Int) ≤ idx := by omega
    simp [task_image, hl, hn0, hn1]

/-- Fixture: a monitor store holding one task with a single image. -/
def storeW10 : MStore := [("task:t1", TVal.json ["img0"])]

/-- Witness for C10: index 5 is rejected, index 0 is served. -/
theorem task_image_index_guard_witness :
    task_image storeW10 "t1" 5 = ImgResponse.indexOutOfRange ∧
    task_image storeW10 "t1" 0 = handleImg "img0" := by
  refine ⟨(task_image_index_guard storeW10 "t1" 5 ["img0"] (by decide)).1 (by norm_num), ?_⟩
  have h := (task_image_index_guard storeW10 "t1" 0 ["img0"] (by decide)).2
    (by norm_num) (by norm_num)
  exact h

/-! ### Result store round-trip (C7) -/

/-- C7: an artifact cached through the Result Store decodes byte-identically
when loaded before the TTL expires, and reads as absent from expiry on. -/
theorem result_store_roundtrip (ttl : Nat) (s : TStore) (now now2 : Nat) (tid : String)
    (pdf : List Nat) (hb : ∀ b ∈ pdf, b < 256) :
    (now2 < now + ttl * 6 →
      loadTaskPdf (cacheTaskPdf ttl s now tid pdf) now2 tid = some pdf) ∧
    (now + ttl * 6 ≤ now2 →
      tget (cacheTaskPdf ttl s now tid pdf) ("task_pdf:" ++ tid) now2 = none ∧
      loadTaskPdf (cacheTaskPdf ttl s now tid pdf) now2 tid = none) := by
  have hfind : (cacheTaskPdf ttl s now tid pdf).entries.find?
      (fun p => p.1 == ("task_pdf:" ++ tid)) =
      some ("task_pdf:" ++ tid, String.mk (encodeB64 pdf), now + ttl * 6) := by
    simp [cacheTaskPdf, tset]
  constructor
  · intro hlt
    rw [loadTaskPdf, tget, hfind]
    simp only [hlt, if_true]
    exact decodeB64_encodeB64 pdf hb
  · intro hge
    have hnlt : ¬ (now2 < now + ttl * 6) := by omega
    constructor
    · rw [tget, hfind]
      simp [hnlt]
    · rw [loadTaskPdf, tget, hfind]
      simp [hnlt]

/-- Witness for C7: the four bytes `%PDF` survive a cache round-trip before
expiry and read as absent afterwards (TTL 900, so expiry at 5400). -/
theorem result_store_roundtrip_witness :
    (0 : Nat) < 0 + 900 * 6 ∧
    loadTaskPdf (cacheTaskPdf 900 ⟨[]⟩ 0 "t1" [37, 80, 68, 70]) 0 "t1"
      = some [37, 80, 68, 70] ∧
    0 + 900 * 6 ≤ 5400 ∧
    loadTaskPdf (cacheTaskPdf 900 ⟨[]⟩ 0 "t1" [37, 80, 68, 70]) 5400 "t1" = none := by
  have h := result_store_roundtrip 900 ⟨[]⟩ 0 0 "t1" [37, 80, 68, 70] (by decide)
  have h2 := result_store_roundtrip 900 ⟨[]⟩ 0 5400 "t1" [37, 80, 68, 70] (by decide)
  exact ⟨by norm_num, h.1 (by norm_num), by norm_num, (h2.2 (by norm_num)).2⟩

/-! ### Render worker store lemmas and C2 / C3 -/

/-- Unequal prefixes keep appended keys unequal. -/
theorem key_ne_append (p1 p2 t : String) (h : p1 ≠ p2) : p1 ++ t ≠ p2 ++ t := by
  intro he
  apply h
  have hd : p1.data ++ t.data = p2.data ++ t.data := by
    have h2 := congrArg String.data he
    simpa using h2
  have h3 : p1.data = p2.data := List.append_cancel_right hd
  exact String.ext h3

theorem find?_filter_ne (k k2 : String) (h : k ≠ k2) :
    ∀ (s : RStore), (s.filter (fun p => !(p.1 == k2))).find? (fun p => p.1 == k)
      = s.find? (fun p => p.1 == k) := by
  intro s
  induction s with
  | nil => rfl
  | cons a rest ih =>
    by_cases hk2 : a.1 = k2
    · have h1 : (!(a.1 == k2)) = false := by simp [hk2]
      have h2 : (a.1 == k) = false := by
        rw [hk2]
        simp [Ne.symm h]
      rw [List.filter_cons, h1]
      simp only [Bool.false_eq_true, if_false]
      rw [ih, List.find?_cons, h2]
    · have h1 : (!(a.1 == k2)) = true := by simp [hk2]
      rw [List.filter_cons, h1]
      simp only [if_true]
      rw [List.find?_cons, List.find?_cons]
      cases hak : (a.1 == k) with
      | true => rfl
      | false => exact ih

theorem find?_filter_self (k : String) : ∀ (s : RStore),
    (s.filter (fun p => !(p.1 == k))).find? (fun p => p.1 == k) = none := by
  intro s
  induction s with
  | nil => rfl
  | cons a rest ih =>
    by_cases hak : a.1 = k
    · have h1 : (!(a.1 == k)) = false := by simp [hak]
      rw [List.filter_cons, h1]
      simp only [Bool.false_eq_true, if_false]
      exact ih
    · have h1 : (!(a.1 == k)) = true := by simp [hak]
      have h2 : (a.1 == k) = false := by simp [hak]
      rw [List.filter_cons, h1]
      simp only [if_true]
      rw [List.find?_cons, h2]
      exact ih

theorem rget_rset_self (s : RStore) (k : String) (v : RVal) :
    rget (rset s k v) k = some v := by
  simp [rget, rset, List.find?_cons]

theorem rget_rset_ne (s : RStore) (k k2 : String) (v : RVal) (h : k ≠ k2) :
    rget (rset s k2 v) k = rget s k := by
  have h2 : (k2 == k) = false := by simp [Ne.symm h]
  rw [rget, rset, List.find?_cons, h2, find?_filter_ne k k2 h s, rget]

theorem rget_rdel_self (s : RStore) (k : String) : rget (rdel s k) k = none := by
  rw [rget, rdel, find?_filter_self k s]
  rfl

theorem rget_rdel_ne (s : RStore) (k k2 : String) (h : k ≠ k2) :
    rget (rdel s k2) k = rget s k := by
  rw [rget, rdel, find?_filter_ne k k2 h s, rget]

/-- C2 counterexample: the worker loop sets the ReadyMarker for a task id
that was never stored, so `task_ready:t1` exists while no RenderResult
(`task_pdf`, `task_pdf_url`, or `task_png`) exists and nothing expired. -/
theorem worker_ready_without_result_example :
    rget (workerStep ⟨false⟩ (RenderOutcome.pdf [37] none) [] "t1") "task_ready:t1"
      = some (RVal.plain "1") ∧
    rget (workerStep ⟨false⟩ (RenderOutcome.pdf [37] none) [] "t1") "task_pdf:t1" = none ∧
    rget (workerStep ⟨false⟩ (RenderOutcome.pdf [37] none) [] "t1") "task_pdf_url:t1" = none ∧
    rget (workerStep ⟨false⟩ (RenderOutcome.pdf [37] none) [] "t1") "task_png:t1" = none := by
  decide

/-- C2 (amended): when the dequeued task id is present and parses and the
render produced a PDF, the step sets the ReadyMarker and a RenderResult
(`task_pdf` or `task_pdf_url`) exists in the store; on failure paths
(missing or unparseable task, render fault) the ReadyMarker can be set
with no stored RenderResult. -/
theorem worker_ready_has_result_on_success (cfg : RenderCfg) (store : RStore) (tid : String)
    (txt : String) (b : List Nat) (s3url : Option String)
    (htask : rget store ("task:" ++ tid) = some (RVal.json txt)) :
    rget (workerStep cfg (RenderOutcome.pdf b s3url) store tid) ("task_ready:" ++ tid)
      = some (RVal.plain "1") ∧
    (rget (workerStep cfg (RenderOutcome.pdf b s3url) store tid) ("task_pdf:" ++ tid) ≠ none ∨
     rget (workerStep cfg (RenderOutcome.pdf b s3url) store tid) ("task_pdf_url:" ++ tid)
       ≠ none) := by
  have hne1 : ("task:" : String) ≠ "task_pending:" := by decide
  have hne2 : ("task_ready:" : String) ≠ "task_pending:" := by decide
  have hne3 : ("task_pdf:" : String) ≠ "task_pending:" := by decide
  have hne4 : ("task_pdf:" : String) ≠ "task_ready:" := by decide
  have hne5 : ("task_pdf_url:" : String) ≠ "task_pending:" := by decide
  have hne6 : ("task_pdf_url:" : String) ≠ "task_ready:" := by decide
  have htask2 : rget (rset store ("task_pending:" ++ tid) (RVal.plain "1")) ("task:" ++ tid)
      = some (RVal.json txt) := by
    rw [rget_rset_ne _ _ _ _ (key_ne_append _ _ _ hne1)]
    exact htask
  rcases cfg with ⟨s3⟩
  rcases s3 with _ | _
  · -- no S3 bucket: result under task_pdf
    simp only [workerStep, render_task, htask2, Bool.false_eq_true, if_false,
      eq_self_iff_true, if_true]
    refine ⟨?_, Or.inl ?_⟩
    · rw [rget_rdel_ne _ _ _ (key_ne_append _ _ _ hne2), rget_rset_self]
    · rw [rget_rdel_ne _ _ _ (key_ne_append _ _ _ hne3),
        rget_rset_ne _ _ _ _ (key_ne_append _ _ _ hne4), rget_rset_self]
      simp
  · -- S3 bucket configured
    rcases s3url with _ | url
    · -- upload failed: base64 fallback under task_pdf
      simp only [workerStep, render_task, htask2, Bool.false_eq_true, if_false,
        eq_self_iff_true, if_true]
      refine ⟨?_, Or.inl ?_⟩
      · rw [rget_rdel_ne _ _ _ (key_ne_append _ _ _ hne2), rget_rset_self]
      · rw [rget_rdel_ne _ _ _ (key_ne_append _ _ _ hne3),
          rget_rset_ne _ _ _ _ (key_ne_append _ _ _ hne4), rget_rset_self]
        simp
    · -- upload succeeded: URL under task_pdf_url
      simp only [workerStep, render_task, htask2, Bool.false_eq_true, if_false,
        eq_self_iff_true, if_true]
      refine ⟨?_, Or.inr ?_⟩
      · rw [rget_rdel_ne _ _ _ (key_ne_append _ _ _ hne2), rget_rset_self]
      · rw [rget_rdel_ne _ _ _ (key_ne_append _ _ _ hne5),
          rget_rset_ne _ _ _ _ (key_ne_append _ _ _ hne6), rget_rset_self]
        simp

/-- Witness for the amended C2 on a concrete successful render. -/
theorem worker_ready_has_result_on_success_witness :
    rget (workerStep ⟨false⟩ (RenderOutcome.pdf [37] none) [("task:t1", RVal.json "x")] "t1")
      "task_ready:t1" = some (RVal.plain "1") ∧
    (rget (workerStep ⟨false⟩ (RenderOutcome.pdf [37] none) [("task:t1", RVal.json "x")] "t1")
      "task_pdf:t1" ≠ none ∨
     rget (workerStep ⟨false⟩ (RenderOutcome.pdf [37] none) [("task:t1", RVal.json "x")] "t1")
      "task_pdf_url:t1" ≠ none) :=
  worker_ready_has_result_on_success ⟨false⟩ [("task:t1", RVal.json "x")] "t1" "x" [37] none
    (by decide)

/-- C3 counterexample: `render_task` raising before its inner `try` (here a
browser-launch failure) is caught by the worker loop's `except`, which
never deletes the pending marker: the task's processing ends with
`task_pending:t1` still set. -/
theorem worker_pending_stuck_example :
    rget (workerStep ⟨false⟩ RenderOutcome.raiseLaunch [("task:t1", RVal.json "x")] "t1")
      "task_pending:t1" = some (RVal.plain "1") := by decide

/-- C3 (amended): the pending marker is cleared on every path on which
`render_task` returns normally (missing task, unparseable task, internally
caught render failure, or success); when `render_task` itself raises, the
marker is left set and only its TTL removes it. -/
theorem worker_pending_cleared_when_no_fault (cfg : RenderCfg) (out : RenderOutcome)
    (store : RStore) (tid : String)
    (h : (render_task cfg out (rset store ("task_pending:" ++ tid) (RVal.plain "1")) tid).2
      = false) :
    rget (workerStep cfg out store tid) ("task_pending:" ++ tid) = none := by
  simp only [workerStep, h, Bool.false_eq_true, if_false]
  exact rget_rdel_self _ _

/-- Witness for the amended C3 on a concrete caught render failure. -/
theorem worker_pending_cleared_when_no_fault_witness :
    rget (workerStep ⟨false⟩ RenderOutcome.failInPage [("task:t1", RVal.json "x")] "t1")
      "task_pending:t1" = none :=
  worker_pending_cleared_when_no_fault ⟨false⟩ RenderOutcome.failInPage
    [("task:t1", RVal.json "x")] "t1" (by decide)
